import Mathlib

/-!
Shallow embedding of `src/core/config.py` of the claude-code-proxy-enhance
repository: the `Config` object (environment-seeded configuration), the
`ConfigManager` profile store (load/save/rename/activate/delete of named
profiles persisted to a JSON document), and the file-write strategy of
`save_profiles`.

Modelling conventions:
* The process environment is a record of optional, already-parsed values
  (`Environ`); `os.environ.get(K, d)` becomes `e.K.getD d`.  Malformed
  numeric environment strings (which make `int(...)` raise at startup)
  are outside the claims considered here, so numeric variables are
  modelled as `Option Int`.
* A profile patch (the `data` dict passed to `Config.update` /
  `ConfigManager.save_profile`) is a record of optional fields, one per
  ConfigField, mirroring the Python presence check `if K in data`.
  Numeric fields carry `Int` values (the claims' stated constraint that
  numeric fields are integer-valued; Python's `int(...)` coercion is then
  the identity).  Nullable string fields carry `Option String`.
* A stored snapshot (the result of `Config.to_dict`) is a record with one
  mandatory field per ConfigField.
* The profiles dict is an association list `List (String × Snapshot)`
  with Python-dict semantics: assignment updates in place or appends,
  `pop`/`del` removes, keys stay unique.
* Python exceptions become an `Option Err` result component; every
  `raise` site of `config.py` is mapped to the error taxonomy of the
  specification.  An operation returns the manager state as it is when
  control leaves the method (so a `raise` before any mutation returns
  the entry state unchanged).
-/

namespace CCProxy

/-- The process environment variables read by `Config.__init__`, already
parsed: `none` means the variable is unset. -/
structure Environ where
  HOST : Option String := none
  PORT : Option Int := none
  LOG_LEVEL : Option String := none
  OPENAI_API_KEY : Option String := none
  ANTHROPIC_API_KEY : Option String := none
  OPENAI_BASE_URL : Option String := none
  AZURE_API_VERSION : Option String := none
  BIG_MODEL : Option String := none
  MIDDLE_MODEL : Option String := none
  SMALL_MODEL : Option String := none
  MAX_TOKENS_LIMIT : Option Int := none
  MIN_TOKENS_LIMIT : Option Int := none
  REQUEST_TIMEOUT : Option Int := none
  MAX_RETRIES : Option Int := none
deriving DecidableEq

/-- The `Config` object of `src/core/config.py` (its instance attributes).
Attributes that Python may hold as `None` are `Option String`. -/
structure Config where
  host : String
  port : Int
  log_level : String
  openai_api_key : Option String
  anthropic_api_key : Option String
  openai_base_url : String
  azure_api_version : Option String
  big_model : String
  middle_model : String
  small_model : String
  max_tokens_limit : Int
  min_tokens_limit : Int
  request_timeout : Int
  max_retries : Int
deriving DecidableEq

/-- `Config.__init__`: every attribute is seeded from the environment with
the fallback literals of the source; in particular `middle_model` falls
back to the (already seeded) `big_model`. -/
def Config.init (e : Environ) : Config where
  host := e.HOST.getD "0.0.0.0"
  port := e.PORT.getD 8082
  log_level := e.LOG_LEVEL.getD "INFO"
  openai_api_key := e.OPENAI_API_KEY
  anthropic_api_key := e.ANTHROPIC_API_KEY
  openai_base_url := e.OPENAI_BASE_URL.getD "https://api.openai.com/v1"
  azure_api_version := e.AZURE_API_VERSION
  big_model := e.BIG_MODEL.getD "gpt-4o"
  middle_model := e.MIDDLE_MODEL.getD (e.BIG_MODEL.getD "gpt-4o")
  small_model := e.SMALL_MODEL.getD "gpt-4o-mini"
  max_tokens_limit := e.MAX_TOKENS_LIMIT.getD 4096
  min_tokens_limit := e.MIN_TOKENS_LIMIT.getD 100
  request_timeout := e.REQUEST_TIMEOUT.getD 90
  max_retries := e.MAX_RETRIES.getD 2

/-- A partial field map (the `data` dict of `Config.update` /
`save_profile`): `none` means the key is absent from the dict. -/
structure Patch where
  OPENAI_API_KEY : Option (Option String) := none
  ANTHROPIC_API_KEY : Option (Option String) := none
  OPENAI_BASE_URL : Option String := none
  AZURE_API_VERSION : Option (Option String) := none
  BIG_MODEL : Option String := none
  MIDDLE_MODEL : Option String := none
  SMALL_MODEL : Option String := none
  MAX_TOKENS_LIMIT : Option Int := none
  MIN_TOKENS_LIMIT : Option Int := none
  REQUEST_TIMEOUT : Option Int := none
  MAX_RETRIES : Option Int := none
deriving DecidableEq

/-- `Config.update(data)`: each attribute is overwritten only when the key
is present in `data`.  Note the `MIDDLE_MODEL` line of the source,
`self.middle_model = data.get("MIDDLE_MODEL", data.get("BIG_MODEL"))`,
runs only under `if "MIDDLE_MODEL" in data`, where `data.get("MIDDLE_MODEL", _)`
returns the present value, so the `BIG_MODEL` fallback argument is
unreachable and the line assigns the present value. -/
def Config.update (c : Config) (data : Patch) : Config where
  host := c.host
  port := c.port
  log_level := c.log_level
  openai_api_key := data.OPENAI_API_KEY.getD c.openai_api_key
  anthropic_api_key := data.ANTHROPIC_API_KEY.getD c.anthropic_api_key
  openai_base_url := data.OPENAI_BASE_URL.getD c.openai_base_url
  azure_api_version := data.AZURE_API_VERSION.getD c.azure_api_version
  big_model := data.BIG_MODEL.getD c.big_model
  middle_model := data.MIDDLE_MODEL.getD c.middle_model
  small_model := data.SMALL_MODEL.getD c.small_model
  max_tokens_limit := data.MAX_TOKENS_LIMIT.getD c.max_tokens_limit
  min_tokens_limit := data.MIN_TOKENS_LIMIT.getD c.min_tokens_limit
  request_timeout := data.REQUEST_TIMEOUT.getD c.request_timeout
  max_retries := data.MAX_RETRIES.getD c.max_retries

/-- A fully-populated profile snapshot: the value of `Config.to_dict`,
and the shape of every profile stored in the durable document. -/
structure Snapshot where
  OPENAI_API_KEY : Option String
  ANTHROPIC_API_KEY : Option String
  OPENAI_BASE_URL : String
  AZURE_API_VERSION : Option String
  BIG_MODEL : String
  MIDDLE_MODEL : String
  SMALL_MODEL : String
  MAX_TOKENS_LIMIT : Int
  MIN_TOKENS_LIMIT : Int
  REQUEST_TIMEOUT : Int
  MAX_RETRIES : Int
deriving DecidableEq

/-- `Config.to_dict()`: serializes the eleven dynamic fields. -/
def Config.to_dict (c : Config) : Snapshot where
  OPENAI_API_KEY := c.openai_api_key
  ANTHROPIC_API_KEY := c.anthropic_api_key
  OPENAI_BASE_URL := c.openai_base_url
  AZURE_API_VERSION := c.azure_api_version
  BIG_MODEL := c.big_model
  MIDDLE_MODEL := c.middle_model
  SMALL_MODEL := c.small_model
  MAX_TOKENS_LIMIT := c.max_tokens_limit
  MIN_TOKENS_LIMIT := c.min_tokens_limit
  REQUEST_TIMEOUT := c.request_timeout
  MAX_RETRIES := c.max_retries

/-- A snapshot viewed as a dict passed to `Config.update`: every key
present (this is how `load_config` layers a stored profile onto the
config object). -/
def Snapshot.toPatch (s : Snapshot) : Patch where
  OPENAI_API_KEY := some s.OPENAI_API_KEY
  ANTHROPIC_API_KEY := some s.ANTHROPIC_API_KEY
  OPENAI_BASE_URL := some s.OPENAI_BASE_URL
  AZURE_API_VERSION := some s.AZURE_API_VERSION
  BIG_MODEL := some s.BIG_MODEL
  MIDDLE_MODEL := some s.MIDDLE_MODEL
  SMALL_MODEL := some s.SMALL_MODEL
  MAX_TOKENS_LIMIT := some s.MAX_TOKENS_LIMIT
  MIN_TOKENS_LIMIT := some s.MIN_TOKENS_LIMIT
  REQUEST_TIMEOUT := some s.REQUEST_TIMEOUT
  MAX_RETRIES := some s.MAX_RETRIES

/-- The closed enumeration of dynamic configuration keys (§3 of the
specification; the keys of the profile dicts of `config.py`). -/
inductive ConfigField
  | OPENAI_API_KEY | ANTHROPIC_API_KEY | OPENAI_BASE_URL | AZURE_API_VERSION
  | BIG_MODEL | MIDDLE_MODEL | SMALL_MODEL
  | MAX_TOKENS_LIMIT | MIN_TOKENS_LIMIT | REQUEST_TIMEOUT | MAX_RETRIES
deriving DecidableEq

/-- A JSON-representable field value: string, integer, or null. -/
inductive Value
  | str (s : String)
  | int (n : Int)
  | null
deriving DecidableEq

/-- A nullable Python string attribute as a JSON value. -/
def optStrVal : Option String → Value
  | some s => .str s
  | none => .null

/-- Field-indexed read of a snapshot (dict lookup on a full profile dict). -/
def Snapshot.getField (s : Snapshot) : ConfigField → Value
  | .OPENAI_API_KEY => optStrVal s.OPENAI_API_KEY
  | .ANTHROPIC_API_KEY => optStrVal s.ANTHROPIC_API_KEY
  | .OPENAI_BASE_URL => .str s.OPENAI_BASE_URL
  | .AZURE_API_VERSION => optStrVal s.AZURE_API_VERSION
  | .BIG_MODEL => .str s.BIG_MODEL
  | .MIDDLE_MODEL => .str s.MIDDLE_MODEL
  | .SMALL_MODEL => .str s.SMALL_MODEL
  | .MAX_TOKENS_LIMIT => .int s.MAX_TOKENS_LIMIT
  | .MIN_TOKENS_LIMIT => .int s.MIN_TOKENS_LIMIT
  | .REQUEST_TIMEOUT => .int s.REQUEST_TIMEOUT
  | .MAX_RETRIES => .int s.MAX_RETRIES

/-- Field-indexed read of a patch: `some v` when the key is present in the
dict with value `v`, `none` when absent. -/
def Patch.getField? (p : Patch) : ConfigField → Option Value
  | .OPENAI_API_KEY => p.OPENAI_API_KEY.map optStrVal
  | .ANTHROPIC_API_KEY => p.ANTHROPIC_API_KEY.map optStrVal
  | .OPENAI_BASE_URL => p.OPENAI_BASE_URL.map .str
  | .AZURE_API_VERSION => p.AZURE_API_VERSION.map optStrVal
  | .BIG_MODEL => p.BIG_MODEL.map .str
  | .MIDDLE_MODEL => p.MIDDLE_MODEL.map .str
  | .SMALL_MODEL => p.SMALL_MODEL.map .str
  | .MAX_TOKENS_LIMIT => p.MAX_TOKENS_LIMIT.map .int
  | .MIN_TOKENS_LIMIT => p.MIN_TOKENS_LIMIT.map .int
  | .REQUEST_TIMEOUT => p.REQUEST_TIMEOUT.map .int
  | .MAX_RETRIES => p.MAX_RETRIES.map .int

/-- Python's `str.strip()`: remove whitespace from both ends. -/
def pyStrip (s : String) : String :=
  String.mk (((s.data.dropWhile Char.isWhitespace).reverse.dropWhile
    Char.isWhitespace).reverse)

/-! ### The profile store (Python dict of profiles, with dict semantics) -/

/-- The profiles dict, as an association list with unique keys. -/
abbrev Profiles := List (String × Snapshot)

/-- Dict lookup: `profiles.get(k)` / `profiles[k]`. -/
def lookupKey : Profiles → String → Option Snapshot
  | [], _ => none
  | p :: t, k => if p.1 = k then some p.2 else lookupKey t k

/-- Dict membership test: `k in profiles`. -/
def hasKey (l : Profiles) (k : String) : Bool :=
  (lookupKey l k).isSome

/-- Dict assignment `profiles[k] = v`: replaces the value in place when the
key exists, appends a new entry otherwise. -/
def setKey : Profiles → String → Snapshot → Profiles
  | [], k, v => [(k, v)]
  | p :: t, k, v => if p.1 = k then (k, v) :: t else p :: setKey t k v

/-- Dict removal `del profiles[k]` / `profiles.pop(k)`. -/
def eraseKey (l : Profiles) (k : String) : Profiles :=
  l.filter (fun p => p.1 ≠ k)

/-- The in-memory `self.data` dict of `ConfigManager`, mirroring the
durable JSON document: `{"active_profile": ..., "profiles": {...}}`. -/
structure StoreData where
  active_profile : String
  profiles : Profiles
deriving DecidableEq

/-- The whole observable state of a `ConfigManager`: the in-memory
`self.data`, the content of the durable `profiles.json` document, and the
resolved `self.config` object read by the rest of the process. -/
structure Manager where
  data : StoreData
  disk : StoreData
  config : Config
deriving DecidableEq

/-- The error taxonomy of the specification (§7), one constructor per
distinct `raise ValueError(...)` site of `config.py`. -/
inductive Err
  | NotFoundError
  | NameConflictError
  | InvalidNameError
  | ProtectedProfileError
  | ActiveProfileDeletionError
deriving DecidableEq

namespace Manager

/-- `ConfigManager.save_profiles`: dumps `self.data` to the JSON file
(the write strategy itself is modelled separately, see `saveProfilesTrace`). -/
def save_profiles (m : Manager) : Manager :=
  { m with disk := m.data }

/-- `ConfigManager.get_active_profile_name`. -/
def get_active_profile_name (m : Manager) : String :=
  m.data.active_profile

/-- `ConfigManager.load_config`: re-reads the document into `self.data`,
then layers the active profile's dict (or `{}` when `active_profile`
names no stored profile) on top of the current `self.config` object.
It raises no error on a dangling `active_profile` (the `.get(name, {})`
default) and performs no repair of the pointer. -/
def load_config (m : Manager) : Manager :=
  let d := m.disk
  let profile_data : Patch :=
    match lookupKey d.profiles d.active_profile with
    | some s => s.toPatch
    | none => {}
  { m with data := d, config := m.config.update profile_data }

/-- `ConfigManager.save_profile(name, profile_data)`: round-trips the
partial data through a fresh environment-seeded `Config` to obtain a full
snapshot, stores it under `name` (insert or overwrite, no validation),
persists, and reloads the config when `name` is the active profile.
Never raises. -/
def save_profile (env : Environ) (m : Manager) (name : String) (profile_data : Patch) :
    Manager :=
  let temp_config := (Config.init env).update profile_data
  let m := { m with data :=
    { m.data with profiles := setKey m.data.profiles name temp_config.to_dict } }
  let m := m.save_profiles
  if name = m.get_active_profile_name then m.load_config else m

/-- `ConfigManager.rename_profile(old_name, new_name)`, checks in source
order: existence of `old_name`, conflict on `new_name`, emptiness of the
stripped `new_name`, protection of `"default"`; then moves the entry
(`profiles[new_name] = profiles.pop(old_name)`, an append since
`new_name` is absent), re-points `active_profile` when it named
`old_name`, and persists. -/
def rename_profile (m : Manager) (old_name new_name : String) :
    Manager × Option Err :=
  match lookupKey m.data.profiles old_name with
  | none => (m, some .NotFoundError)
  | some v =>
    if hasKey m.data.profiles new_name then (m, some .NameConflictError)
    else if pyStrip new_name = "" then (m, some .InvalidNameError)
    else if old_name = "default" then (m, some .ProtectedProfileError)
    else
      let profiles := eraseKey m.data.profiles old_name ++ [(new_name, v)]
      let active := if m.data.active_profile = old_name then new_name
                    else m.data.active_profile
      let m := { m with data := { active_profile := active, profiles := profiles } }
      (m.save_profiles, none)

/-- `ConfigManager.activate_profile(name)`: existence check, set the
active pointer, persist, reload the resolved config. -/
def activate_profile (m : Manager) (name : String) : Manager × Option Err :=
  if hasKey m.data.profiles name then
    let m := { m with data := { m.data with active_profile := name } }
    ((m.save_profiles).load_config, none)
  else (m, some .NotFoundError)

/-- `ConfigManager.delete_profile(name)`, checks in source order:
existence, protection of `"default"`, active-profile guard; then removes
the entry and persists. -/
def delete_profile (m : Manager) (name : String) : Manager × Option Err :=
  if hasKey m.data.profiles name then
    if name = "default" then (m, some .ProtectedProfileError)
    else if name = m.get_active_profile_name then (m, some .ActiveProfileDeletionError)
    else
      let m := { m with data :=
        { m.data with profiles := eraseKey m.data.profiles name } }
      (m.save_profiles, none)
  else (m, some .NotFoundError)

end Manager

/-- `ConfigManager.__init__` when no durable document exists yet:
`self.data` starts as `{"active_profile": "default", "profiles": {}}`,
`self.config = Config()`, then `_ensure_config_exists` stores a default
profile equal to the current environment defaults and persists it, and
`load_config` reads it back. -/
def initManager (env : Environ) : Manager :=
  let c := Config.init env
  let d0 : StoreData := { active_profile := "default", profiles := [] }
  let d1 : StoreData :=
    { d0 with profiles := setKey d0.profiles "default" (Config.init env).to_dict }
  Manager.load_config { data := d1, disk := d1, config := c }

/-- `ConfigManager.__init__` when the durable document already exists and
parses to `doc`: `_ensure_config_exists` is a no-op and `load_config`
adopts the document as found. -/
def initFromDoc (env : Environ) (doc : StoreData) : Manager :=
  Manager.load_config
    { data := { active_profile := "default", profiles := [] },
      disk := doc, config := Config.init env }

/-! ### Operation language over the manager -/

/-- One mutating `ConfigManager` operation. -/
inductive Op
  | save (name : String) (profile_data : Patch)
  | rename (old_name new_name : String)
  | activate (name : String)
  | delete (name : String)

/-- Run one operation; the second component is the raised error, if any
(`save_profile` never raises). -/
def applyOp (env : Environ) (m : Manager) : Op → Manager × Option Err
  | .save name p => (m.save_profile env name p, none)
  | .rename old_name new_name => m.rename_profile old_name new_name
  | .activate name => m.activate_profile name
  | .delete name => m.delete_profile name

/-- Run a sequence of operations, keeping the state an operation leaves
behind whether or not it raised. -/
def runOps (env : Environ) (m : Manager) : List Op → Manager
  | [] => m
  | op :: rest => runOps env (applyOp env m op).1 rest

/-- The stated input constraints of the specification's operation table
(§4.4) for each operation, evaluated against the store at call time. -/
def Op.valid (d : StoreData) : Op → Prop
  | .save name _ => pyStrip name ≠ ""
  | .rename old_name new_name =>
      hasKey d.profiles old_name = true ∧ hasKey d.profiles new_name = false ∧
      pyStrip new_name ≠ "" ∧ old_name ≠ "default"
  | .activate name => hasKey d.profiles name = true
  | .delete name =>
      hasKey d.profiles name = true ∧ name ≠ "default" ∧ name ≠ d.active_profile

instance (d : StoreData) (op : Op) : Decidable (op.valid d) := by
  cases op <;> simp only [Op.valid] <;> infer_instance

/-- Every operation of the sequence satisfies its stated input
constraints at the state where it runs. -/
def ValidOps (env : Environ) (m : Manager) : List Op → Prop
  | [] => True
  | op :: rest => op.valid m.data ∧ ValidOps env (applyOp env m op).1 rest

instance (env : Environ) (m : Manager) (ops : List Op) :
    Decidable (ValidOps env m ops) := by
  induction ops generalizing m with
  | nil => exact .isTrue trivial
  | cons op rest ih => exact @instDecidableAnd _ _ _ (ih _)

/-- The store invariants of §3 of the specification: `"default"` is
present, the active pointer names a stored profile, and profile names are
unique and non-empty after trimming. -/
def Inv (d : StoreData) : Prop :=
  hasKey d.profiles "default" = true ∧
  hasKey d.profiles d.active_profile = true ∧
  (d.profiles.map Prod.fst).Nodup ∧
  ∀ p ∈ d.profiles, pyStrip p.1 ≠ ""

/-! ### The file-write strategy of `save_profiles` -/

/-- One file-system operation, at the granularity relevant to the
durable-write strategy. -/
inductive FileOp
  | openTrunc (path : String)
  | writeContent (path : String)
  | closeFile (path : String)
  | renameFile (src dst : String)
deriving DecidableEq

/-- `self.profiles_path = os.path.join(self.config_dir, "profiles.json")`
with the default `config_dir="configs"`. -/
def profilesPath : String := "configs/profiles.json"

/-- The file-system effect of `ConfigManager.save_profiles`:
`with open(self.profiles_path, "w") as f: json.dump(self.data, f, indent=2)`
opens the target itself in truncating write mode, writes the document,
and closes it. -/
def saveProfilesTrace : List FileOp :=
  [.openTrunc profilesPath, .writeContent profilesPath, .closeFile profilesPath]

/-- Modelled from the spec: `save` requires "a write-to-temporary-then-
atomically-replace strategy rather than in-place truncation" — the trace
renames some other path onto the target and never opens the target itself
in truncating write mode. -/
def usesAtomicReplaceStrategy (t : List FileOp) (target : String) : Prop :=
  (∃ tmp, tmp ≠ target ∧ FileOp.renameFile tmp target ∈ t) ∧
  ∀ op ∈ t, op ≠ FileOp.openTrunc target

/-- The trace touches no file other than the target, which it writes in
place, and performs no rename. -/
def touchesOnlyTargetInPlace (t : List FileOp) (target : String) : Bool :=
  t.all fun op =>
    match op with
    | .openTrunc p => p = target
    | .writeContent p => p = target
    | .closeFile p => p = target
    | .renameFile _ _ => false

/-! ### Association-list (Python dict) lemmas -/

theorem lookupKey_setKey_self (l : Profiles) (k : String) (v : Snapshot) :
    lookupKey (setKey l k v) k = some v := by
  induction l with
  | nil => simp [setKey, lookupKey]
  | cons p t ih =>
    by_cases h : p.1 = k
    · simp [setKey, h, lookupKey]
    · simp [setKey, h, lookupKey, ih]

theorem hasKey_cons (p : String × Snapshot) (t : Profiles) (k : String) :
    hasKey (p :: t) k = if p.1 = k then true else hasKey t k := by
  by_cases hp : p.1 = k <;> simp [hasKey, lookupKey, hp]

theorem lookupKey_setKey_ne (l : Profiles) (k k' : String) (v : Snapshot)
    (h : k' ≠ k) : lookupKey (setKey l k v) k' = lookupKey l k' := by
  induction l with
  | nil =>
    show (if k = k' then some v else none) = none
    rw [if_neg (fun hk => h hk.symm)]
  | cons p t ih =>
    by_cases hp : p.1 = k
    · simp only [setKey, if_pos hp, lookupKey]
      rw [if_neg (fun hk => h hk.symm),
        if_neg (show ¬p.1 = k' from fun hk => h (hk.symm.trans hp))]
    · simp only [setKey, if_neg hp, lookupKey, ih]

theorem hasKey_setKey (l : Profiles) (k k' : String) (v : Snapshot) :
    hasKey (setKey l k v) k' = true ↔ k' = k ∨ hasKey l k' = true := by
  by_cases h : k' = k
  · subst h; simp [hasKey, lookupKey_setKey_self]
  · simp [hasKey, lookupKey_setKey_ne l k k' v h, h]

theorem mem_of_mem_setKey {l : Profiles} {k : String} {v : Snapshot}
    {p : String × Snapshot} (h : p ∈ setKey l k v) : p.1 = k ∨ p ∈ l := by
  induction l with
  | nil => simp [setKey] at h; simp [h]
  | cons q t ih =>
    by_cases hq : q.1 = k
    · simp [setKey, hq] at h
      rcases h with h | h
      · simp [h]
      · exact Or.inr (List.mem_cons_of_mem q h)
    · simp [setKey, hq] at h
      rcases h with h | h
      · exact Or.inr (h ▸ List.mem_cons_self q t)
      · rcases ih h with h' | h'
        · exact Or.inl h'
        · exact Or.inr (List.mem_cons_of_mem q h')

theorem keys_setKey (l : Profiles) (k : String) (v : Snapshot) :
    (setKey l k v).map Prod.fst =
      if hasKey l k then l.map Prod.fst else l.map Prod.fst ++ [k] := by
  induction l with
  | nil => simp [setKey, hasKey, lookupKey]
  | cons p t ih =>
    by_cases hp : p.1 = k
    · simp [setKey, if_pos hp, hasKey_cons, hp]
    · rw [hasKey_cons, if_neg hp]
      simp only [setKey, if_neg hp, List.map_cons, ih]
      by_cases ht : hasKey t k = true
      · simp [ht]
      · rw [Bool.not_eq_true] at ht
        simp [ht]

theorem not_mem_keys_of_hasKey_eq_false {l : Profiles} {k : String}
    (h : hasKey l k = false) : k ∉ l.map Prod.fst := by
  induction l with
  | nil => simp
  | cons p t ih =>
    rw [hasKey_cons] at h
    by_cases hp : p.1 = k
    · rw [if_pos hp] at h
      exact absurd h (by simp)
    · rw [if_neg hp] at h
      simp only [List.map_cons, List.mem_cons, not_or]
      exact ⟨fun hh => hp hh.symm, ih h⟩

theorem nodup_keys_setKey {l : Profiles} (k : String) (v : Snapshot)
    (h : (l.map Prod.fst).Nodup) : ((setKey l k v).map Prod.fst).Nodup := by
  rw [keys_setKey]
  by_cases hl : hasKey l k = true
  · simp [hl, h]
  · rw [Bool.not_eq_true] at hl
    have hk := not_mem_keys_of_hasKey_eq_false hl
    simp [hl, List.nodup_append, h, hk]

theorem eraseKey_cons_self {p : String × Snapshot} {t : Profiles} {k : String}
    (hp : p.1 = k) : eraseKey (p :: t) k = eraseKey t k := by
  simp [eraseKey, List.filter_cons, hp]

theorem eraseKey_cons_ne {p : String × Snapshot} {t : Profiles} {k : String}
    (hp : ¬p.1 = k) : eraseKey (p :: t) k = p :: eraseKey t k := by
  simp [eraseKey, List.filter_cons, hp]

theorem lookupKey_eraseKey (l : Profiles) (k k' : String) :
    lookupKey (eraseKey l k) k' = if k' = k then none else lookupKey l k' := by
  induction l with
  | nil => simp [eraseKey, lookupKey]
  | cons p t ih =>
    by_cases hp : p.1 = k
    · rw [eraseKey_cons_self hp, ih]
      by_cases hk : k' = k
      · simp [hk]
      · rw [if_neg hk, if_neg hk]
        show lookupKey t k' = if p.1 = k' then some p.2 else lookupKey t k'
        rw [if_neg (show ¬p.1 = k' from fun hh => hk (hh.symm.trans hp))]
    · rw [eraseKey_cons_ne hp]
      show (if p.1 = k' then some p.2 else lookupKey (eraseKey t k) k') = _
      by_cases hpk : p.1 = k'
      · rw [if_pos hpk,
          if_neg (show ¬k' = k from fun hh => hp (hpk.trans hh))]
        exact (if_pos hpk).symm
      · rw [if_neg hpk, ih]
        by_cases hk : k' = k
        · simp [hk]
        · rw [if_neg hk, if_neg hk]
          exact (if_neg hpk).symm

theorem hasKey_eraseKey (l : Profiles) (k k' : String) :
    hasKey (eraseKey l k) k' = true ↔ k' ≠ k ∧ hasKey l k' = true := by
  by_cases h : k' = k <;> simp [hasKey, lookupKey_eraseKey, h]

theorem mem_of_mem_eraseKey {l : Profiles} {k : String} {p : String × Snapshot}
    (h : p ∈ eraseKey l k) : p ∈ l :=
  List.mem_of_mem_filter h

theorem keys_eraseKey_sublist (l : Profiles) (k : String) :
    ((eraseKey l k).map Prod.fst).Sublist (l.map Prod.fst) :=
  (List.filter_sublist l).map Prod.fst

theorem hasKey_append (l₁ l₂ : Profiles) (k : String) :
    hasKey (l₁ ++ l₂) k = (hasKey l₁ k || hasKey l₂ k) := by
  induction l₁ with
  | nil => simp [hasKey, lookupKey]
  | cons p t ih =>
    by_cases hp : p.1 = k
    · simp [hasKey, lookupKey, hp]
    · simp [hasKey, lookupKey, hp] at ih ⊢
      simp [ih]

/-! ### Reduction lemmas for the manager operations -/

theorem Config.update_emptyPatch (c : Config) : c.update {} = c := rfl

theorem Config.to_dict_update_toPatch (c : Config) (s : Snapshot) :
    (c.update s.toPatch).to_dict = s := rfl

theorem save_profile_data (env : Environ) (m : Manager) (n : String) (p : Patch) :
    (m.save_profile env n p).data
      = ⟨m.data.active_profile,
         setKey m.data.profiles n ((Config.init env).update p).to_dict⟩ := by
  unfold Manager.save_profile Manager.save_profiles Manager.load_config
    Manager.get_active_profile_name
  dsimp only
  split <;> rfl

theorem rename_profile_success (m : Manager) (old_name new_name : String)
    (v : Snapshot) (hov : lookupKey m.data.profiles old_name = some v)
    (hn : hasKey m.data.profiles new_name = false)
    (hs : ¬pyStrip new_name = "") (hd : ¬old_name = "default") :
    m.rename_profile old_name new_name
      = (⟨⟨if m.data.active_profile = old_name then new_name
            else m.data.active_profile,
           eraseKey m.data.profiles old_name ++ [(new_name, v)]⟩,
          ⟨if m.data.active_profile = old_name then new_name
            else m.data.active_profile,
           eraseKey m.data.profiles old_name ++ [(new_name, v)]⟩,
          m.config⟩, none) := by
  unfold Manager.rename_profile Manager.save_profiles
  simp only [hov]
  rw [if_neg (show ¬hasKey m.data.profiles new_name = true by simp [hn]),
    if_neg hs, if_neg hd]

theorem activate_profile_success (m : Manager) (name : String)
    (hv : hasKey m.data.profiles name = true) :
    m.activate_profile name
      = (⟨⟨name, m.data.profiles⟩, ⟨name, m.data.profiles⟩,
          m.config.update
            (match lookupKey m.data.profiles name with
             | some s => s.toPatch
             | none => {})⟩, none) := by
  unfold Manager.activate_profile Manager.save_profiles Manager.load_config
  rw [if_pos hv]

theorem delete_profile_success (m : Manager) (name : String)
    (hm : hasKey m.data.profiles name = true) (hd : ¬name = "default")
    (ha : ¬name = m.data.active_profile) :
    m.delete_profile name
      = (⟨⟨m.data.active_profile, eraseKey m.data.profiles name⟩,
          ⟨m.data.active_profile, eraseKey m.data.profiles name⟩,
          m.config⟩, none) := by
  unfold Manager.delete_profile Manager.save_profiles
    Manager.get_active_profile_name
  rw [if_pos hm, if_neg hd, if_neg ha]

/-- No operation ever touches the environment-only fields of the resolved
config: `Config.update` leaves `host`, `port` and `log_level` alone. -/
theorem applyOp_config_static (env : Environ) (m : Manager) (op : Op) :
    ((applyOp env m op).1).config.host = m.config.host ∧
    ((applyOp env m op).1).config.port = m.config.port ∧
    ((applyOp env m op).1).config.log_level = m.config.log_level := by
  cases op <;>
    · simp only [applyOp, Manager.save_profile, Manager.rename_profile,
        Manager.activate_profile, Manager.delete_profile, Manager.save_profiles,
        Manager.load_config, Manager.get_active_profile_name]
      repeat' split
      all_goals exact ⟨rfl, rfl, rfl⟩

theorem runOps_config_static (env : Environ) (ops : List Op) (m : Manager) :
    (runOps env m ops).config.host = m.config.host ∧
    (runOps env m ops).config.port = m.config.port ∧
    (runOps env m ops).config.log_level = m.config.log_level := by
  induction ops generalizing m with
  | nil => exact ⟨rfl, rfl, rfl⟩
  | cons op rest ih =>
    obtain ⟨h1, h2, h3⟩ := ih (applyOp env m op).1
    obtain ⟨g1, g2, g3⟩ := applyOp_config_static env m op
    exact ⟨h1.trans g1, h2.trans g2, h3.trans g3⟩

theorem initManager_config_static (env : Environ) :
    (initManager env).config.host = (Config.init env).host ∧
    (initManager env).config.port = (Config.init env).port ∧
    (initManager env).config.log_level = (Config.init env).log_level :=
  ⟨rfl, rfl, rfl⟩

/-! ### Invariant preservation -/

theorem inv_initManager (env : Environ) : Inv (initManager env).data := by
  have hd : (initManager env).data
      = ⟨"default", [("default", (Config.init env).to_dict)]⟩ := rfl
  unfold Inv
  rw [hd]
  refine ⟨by simp [hasKey, lookupKey], by simp [hasKey, lookupKey], by simp, ?_⟩
  intro p hp
  rw [List.mem_singleton] at hp
  rw [hp]
  exact (by decide : pyStrip "default" ≠ "")

theorem inv_step (env : Environ) (m : Manager) (op : Op)
    (hInv : Inv m.data) (hv : op.valid m.data) :
    Inv ((applyOp env m op).1).data := by
  obtain ⟨hdef, hact, hnodup, hnames⟩ := hInv
  cases op with
  | save name p =>
    have hdata : ((applyOp env m (Op.save name p)).1).data
        = ⟨m.data.active_profile,
           setKey m.data.profiles name ((Config.init env).update p).to_dict⟩ :=
      save_profile_data env m name p
    rw [Inv, hdata]
    refine ⟨(hasKey_setKey _ _ _ _).2 (Or.inr hdef),
      (hasKey_setKey _ _ _ _).2 (Or.inr hact),
      nodup_keys_setKey _ _ hnodup, ?_⟩
    intro q hq
    rcases mem_of_mem_setKey hq with h1 | h1
    · rw [h1]; exact hv
    · exact hnames q h1
  | rename old_name new_name =>
    obtain ⟨ho, hn, hs, hd⟩ := hv
    obtain ⟨v, hov⟩ := Option.isSome_iff_exists.1 ho
    have hdata : ((applyOp env m (Op.rename old_name new_name)).1).data
        = ⟨if m.data.active_profile = old_name then new_name
            else m.data.active_profile,
           eraseKey m.data.profiles old_name ++ [(new_name, v)]⟩ := by
      show ((m.rename_profile old_name new_name).1).data = _
      rw [rename_profile_success m old_name new_name v hov hn hs hd]
    rw [Inv, hdata]
    refine ⟨?_, ?_, ?_, ?_⟩
    · rw [hasKey_append]
      have h1 : hasKey (eraseKey m.data.profiles old_name) "default" = true :=
        (hasKey_eraseKey _ _ _).2 ⟨fun hh => hd hh.symm, hdef⟩
      simp [h1]
    · by_cases hao : m.data.active_profile = old_name
      · rw [if_pos hao, hasKey_append]
        have h1 : hasKey [(new_name, v)] new_name = true := by
          simp [hasKey, lookupKey]
        simp [h1]
      · rw [if_neg hao, hasKey_append]
        have h1 : hasKey (eraseKey m.data.profiles old_name)
            m.data.active_profile = true :=
          (hasKey_eraseKey _ _ _).2 ⟨hao, hact⟩
        simp [h1]
    · rw [List.map_append]
      rw [List.nodup_append]
      refine ⟨List.Nodup.sublist (keys_eraseKey_sublist _ _) hnodup, by simp, ?_⟩
      intro a ha hb
      simp only [List.map_cons, List.map_nil, List.mem_singleton] at hb
      rw [hb] at ha
      exact not_mem_keys_of_hasKey_eq_false hn ((keys_eraseKey_sublist _ _).subset ha)
    · intro q hq
      rcases List.mem_append.1 hq with h1 | h1
      · exact hnames q (mem_of_mem_eraseKey h1)
      · rw [List.mem_singleton] at h1
        rw [h1]
        exact hs
  | activate name =>
    have hdata : ((applyOp env m (Op.activate name)).1).data
        = ⟨name, m.data.profiles⟩ := by
      show ((m.activate_profile name).1).data = _
      rw [activate_profile_success m name hv]
    rw [Inv, hdata]
    exact ⟨hdef, hv, hnodup, hnames⟩
  | delete name =>
    obtain ⟨hm, hd, ha⟩ := hv
    have hdata : ((applyOp env m (Op.delete name)).1).data
        = ⟨m.data.active_profile, eraseKey m.data.profiles name⟩ := by
      show ((m.delete_profile name).1).data = _
      rw [delete_profile_success m name hm hd ha]
    rw [Inv, hdata]
    refine ⟨(hasKey_eraseKey _ _ _).2 ⟨fun hh => hd hh.symm, hdef⟩,
      (hasKey_eraseKey _ _ _).2 ⟨fun hh => ha hh.symm, hact⟩,
      List.Nodup.sublist (keys_eraseKey_sublist _ _) hnodup,
      fun q hq => hnames q (mem_of_mem_eraseKey hq)⟩

theorem runOps_inv (env : Environ) (ops : List Op) :
    ∀ m : Manager, Inv m.data → ValidOps env m ops →
      Inv (runOps env m ops).data := by
  induction ops with
  | nil => exact fun m hm _ => hm
  | cons op rest ih =>
    intro m hm hv
    exact ih _ (inv_step env m op hm hv.1) hv.2

/-! ### Field-level normalization lemma -/

theorem getD_map {α β : Type} (g : α → β) (o : Option α) (d : α) :
    (o.map g).getD (g d) = g (o.getD d) := by
  cases o <;> rfl

/-- Field-indexed description of the round trip through a fresh `Config`:
present patch fields win, absent ones take the config's value. -/
theorem getField_update_to_dict (c : Config) (p : Patch) (f : ConfigField) :
    ((c.update p).to_dict).getField f
      = (p.getField? f).getD ((c.to_dict).getField f) := by
  cases f <;>
    simp only [Snapshot.getField, Patch.getField?, Config.to_dict, Config.update] <;>
    rw [getD_map]

/-! ### Claims -/

/-- C1: for every sequence of ConfigManager operations satisfying their
stated input constraints, starting from the store synthesized by load,
after each operation the profiles mapping contains `"default"`, the
active profile names a stored profile, and all profile names are unique
and non-empty after trimming ("name non-empty" for
`createOrReplaceProfile` is read as the spec's name validity of §7:
non-empty after stripping whitespace; the source itself performs no name
validation in `save_profile`).  Since `runOps` ranges over arbitrary
sequences, the statement covers every prefix, i.e. the invariant after
each step. -/
theorem spec_invariant_preservation (env : Environ) (ops : List Op)
    (h : ValidOps env (initManager env) ops) :
    Inv (runOps env (initManager env) ops).data :=
  runOps_inv env ops (initManager env) (inv_initManager env) h

/-- Witness for C1 at a concrete valid operation sequence. -/
theorem spec_invariant_preservation_witness :
    ValidOps {} (initManager {}) [.save "p" {}, .activate "p"] ∧
    Inv (runOps {} (initManager {}) [.save "p" {}, .activate "p"]).data :=
  ⟨by decide, spec_invariant_preservation {} [.save "p" {}, .activate "p"] (by decide)⟩

/-- C2, counterexample: renaming `"default"` to a name that already
exists fails with `NameConflictError`, not `ProtectedProfileError` — the
conflict check of `rename_profile` runs before the protected-profile
check. -/
theorem default_rename_error_kind_cex :
    (((initManager {}).save_profile {} "other" {}).rename_profile
        "default" "other").2 = some Err.NameConflictError ∧
    Err.NameConflictError ≠ Err.ProtectedProfileError := by decide

/-- C2 (amended): `rename_profile("default", X)` always fails and leaves
the state unchanged, and `delete_profile("default")` always fails and
leaves the state unchanged, so the `"default"` profile is never renamed
or deleted; the error is `ProtectedProfileError` for the rename exactly
when the earlier checks pass (X valid and not already present, with
`"default"` stored), and for the delete whenever `"default"` is stored. -/
theorem default_profile_protected (m : Manager) (X : String) :
    ((m.rename_profile "default" X).2.isSome = true ∧
      (m.rename_profile "default" X).1 = m) ∧
    ((m.delete_profile "default").2.isSome = true ∧
      (m.delete_profile "default").1 = m) ∧
    (hasKey m.data.profiles "default" = true →
      hasKey m.data.profiles X = false → pyStrip X ≠ "" →
      (m.rename_profile "default" X).2 = some Err.ProtectedProfileError) ∧
    (hasKey m.data.profiles "default" = true →
      (m.delete_profile "default").2 = some Err.ProtectedProfileError) := by
  refine ⟨?_, ?_, ?_, ?_⟩
  · unfold Manager.rename_profile
    cases ho : lookupKey m.data.profiles "default" with
    | none => exact ⟨rfl, rfl⟩
    | some v =>
      dsimp only
      split
      · exact ⟨rfl, rfl⟩
      · split
        · exact ⟨rfl, rfl⟩
        · rw [if_pos rfl]
          exact ⟨rfl, rfl⟩
  · unfold Manager.delete_profile
    split
    · rw [if_pos rfl]
      exact ⟨rfl, rfl⟩
    · exact ⟨rfl, rfl⟩
  · intro h1 h2 h3
    obtain ⟨v, hov⟩ := Option.isSome_iff_exists.1 h1
    unfold Manager.rename_profile
    simp only [hov]
    rw [if_neg (show ¬hasKey m.data.profiles X = true by simp [h2]), if_neg h3]
    simp
  · intro h1
    unfold Manager.delete_profile
    rw [if_pos h1, if_pos rfl]

/-- Witness for C2 at a concrete store and fresh name. -/
theorem default_profile_protected_witness :
    (hasKey (initManager {}).data.profiles "default" = true ∧
      hasKey (initManager {}).data.profiles "x" = false ∧ pyStrip "x" ≠ "") ∧
    ((initManager {}).rename_profile "default" "x").2
        = some Err.ProtectedProfileError ∧
    ((initManager {}).delete_profile "default").2
        = some Err.ProtectedProfileError :=
  ⟨⟨by decide, by decide, by decide⟩,
    (default_profile_protected (initManager {}) "x").2.2.1
      (by decide) (by decide) (by decide),
    (default_profile_protected (initManager {}) "x").2.2.2 (by decide)⟩

/-- C3, counterexample: with the freshly synthesized store, `"default"`
is the active profile and is present, yet `delete_profile("default")`
fails with `ProtectedProfileError`, not `ActiveProfileDeletionError` —
the protected check runs first, so the stated iff fails at
`name = "default"`. -/
theorem delete_active_default_cex :
    (initManager {}).data.active_profile = "default" ∧
    hasKey (initManager {}).data.profiles "default" = true ∧
    ((initManager {}).delete_profile "default").2
        = some Err.ProtectedProfileError ∧
    some Err.ProtectedProfileError ≠ some Err.ActiveProfileDeletionError := by
  decide

/-- C3 (amended): for every profile name present in the store other than
`"default"`, `delete_profile(name)` fails with
`ActiveProfileDeletionError` iff `name` equals the active profile at call
time. -/
theorem delete_active_guard (m : Manager) (name : String)
    (hmem : hasKey m.data.profiles name = true) (hdef : name ≠ "default") :
    ((m.delete_profile name).2 = some Err.ActiveProfileDeletionError
      ↔ name = m.data.active_profile) := by
  unfold Manager.delete_profile Manager.get_active_profile_name
  rw [if_pos hmem, if_neg hdef]
  by_cases ha : name = m.data.active_profile
  · rw [if_pos ha]
    simp [ha]
  · rw [if_neg ha]
    simp [ha]

/-- Witness for C3 at a concrete non-active, non-default profile. -/
theorem delete_active_guard_witness :
    (hasKey ((initManager {}).save_profile {} "p" {}).data.profiles "p" = true ∧
      ("p" : String) ≠ "default") ∧
    ((((initManager {}).save_profile {} "p" {}).delete_profile "p").2
        = some Err.ActiveProfileDeletionError
      ↔ "p" = ((initManager {}).save_profile {} "p" {}).data.active_profile) :=
  ⟨⟨by decide, by decide⟩,
    delete_active_guard ((initManager {}).save_profile {} "p" {}) "p"
      (by decide) (by decide)⟩

/-- C4: the snapshot stored by `save_profile(n, P)` is a full `Snapshot`
(every ConfigField is present by construction of `Config.to_dict`), each
field present in the partial map `P` carries `P`'s value, and each absent
field carries the current environment defaults' value. -/
theorem save_profile_round_trip (env : Environ) (m : Manager) (n : String)
    (p : Patch) :
    lookupKey (m.save_profile env n p).data.profiles n
      = some ((Config.init env).update p).to_dict ∧
    ∀ f : ConfigField,
      (((Config.init env).update p).to_dict).getField f
        = (p.getField? f).getD (((Config.init env).to_dict).getField f) := by
  constructor
  · rw [save_profile_data]
    exact lookupKey_setKey_self _ _ _
  · exact getField_update_to_dict (Config.init env) p

/-- C5, counterexample: creating a profile whose partial data supplies
`BIG_MODEL` but not `MIDDLE_MODEL` stores a snapshot whose
`MIDDLE_MODEL` is the environment default (`"gpt-4o"` with an empty
environment), not the snapshot's `BIG_MODEL` value — the `BIG_MODEL`
fallback in `Config.update` is unreachable because the line only runs
when `MIDDLE_MODEL` is present. -/
theorem middle_model_fallback_cex :
    (lookupKey ((initManager {}).save_profile {} "staging"
        { BIG_MODEL := some "gpt-5" }).data.profiles "staging").map
      Snapshot.MIDDLE_MODEL = some "gpt-4o" ∧
    (lookupKey ((initManager {}).save_profile {} "staging"
        { BIG_MODEL := some "gpt-5" }).data.profiles "staging").map
      Snapshot.BIG_MODEL = some "gpt-5" ∧
    ("gpt-4o" : String) ≠ "gpt-5" := by decide

/-- C5 (amended): when the partial data leaves `MIDDLE_MODEL`
unspecified, the stored snapshot's `MIDDLE_MODEL` equals the current
environment defaults' middle model — which itself falls back to the
environment's `BIG_MODEL` (then to `"gpt-4o"`) when `MIDDLE_MODEL` is
unset in the environment — regardless of any `BIG_MODEL` in the patch. -/
theorem middle_model_env_default (env : Environ) (m : Manager) (n : String)
    (p : Patch) (h : p.MIDDLE_MODEL = none) :
    (lookupKey (m.save_profile env n p).data.profiles n).map
        Snapshot.MIDDLE_MODEL = some (Config.init env).middle_model ∧
    (Config.init env).middle_model
      = env.MIDDLE_MODEL.getD (env.BIG_MODEL.getD "gpt-4o") := by
  constructor
  · rw [save_profile_data, lookupKey_setKey_self]
    simp [Config.update, Config.to_dict, h]
  · rfl

/-- Witness for C5 (amended) at the empty patch. -/
theorem middle_model_env_default_witness :
    ({} : Patch).MIDDLE_MODEL = none ∧
    (lookupKey ((initManager {}).save_profile {} "q" {}).data.profiles "q").map
        Snapshot.MIDDLE_MODEL = some (Config.init {}).middle_model :=
  ⟨rfl, (middle_model_env_default {} (initManager {}) "q" {} rfl).1⟩

/-- C6: from any state reachable from the synthesized store, if `n` names
a stored profile (snapshots are fully populated by construction), then
`activate_profile(n)` succeeds and the resolved config's dynamic fields
equal exactly the snapshot stored under `n`, while host, port and log
level remain the environment defaults, regardless of which profile was
active before. -/
theorem activate_resolution (env : Environ) (ops : List Op) (n : String)
    (s : Snapshot)
    (hs : lookupKey (runOps env (initManager env) ops).data.profiles n = some s) :
    ((runOps env (initManager env) ops).activate_profile n).2 = none ∧
    (((runOps env (initManager env) ops).activate_profile n).1).config.to_dict
      = s ∧
    (((runOps env (initManager env) ops).activate_profile n).1).config.host
      = (Config.init env).host ∧
    (((runOps env (initManager env) ops).activate_profile n).1).config.port
      = (Config.init env).port ∧
    (((runOps env (initManager env) ops).activate_profile n).1).config.log_level
      = (Config.init env).log_level := by
  set m := runOps env (initManager env) ops with hm
  have hk : hasKey m.data.profiles n = true := by
    rw [hasKey, hs]
    rfl
  have hred := activate_profile_success m n hk
  have hstat : m.config.host = (Config.init env).host ∧
      m.config.port = (Config.init env).port ∧
      m.config.log_level = (Config.init env).log_level := by
    obtain ⟨h1, h2, h3⟩ := runOps_config_static env ops (initManager env)
    obtain ⟨g1, g2, g3⟩ := initManager_config_static env
    rw [hm]
    exact ⟨h1.trans g1, h2.trans g2, h3.trans g3⟩
  refine ⟨by rw [hred], ?_, ?_, ?_, ?_⟩
  · rw [hred]
    simp only [hs]
    exact Config.to_dict_update_toPatch _ _
  · rw [hred]
    exact hstat.1
  · rw [hred]
    exact hstat.2.1
  · rw [hred]
    exact hstat.2.2

/-- Witness for C6 at a concrete freshly saved profile. -/
theorem activate_resolution_witness :
    lookupKey (runOps {} (initManager {}) [.save "p" {}]).data.profiles "p"
      = some (Config.init {}).to_dict ∧
    (((runOps {} (initManager {}) [.save "p" {}]).activate_profile "p").1).config.to_dict
      = (Config.init {}).to_dict :=
  ⟨by decide,
    (activate_resolution {} [.save "p" {}] "p" (Config.init {}).to_dict
      (by decide)).2.1⟩

/-- C7: whenever an operation raises (all raises in `config.py` happen
during validation, before any mutation), the entire manager state —
in-memory store, durable document and resolved config — is returned
unchanged. -/
theorem error_leaves_state_unchanged (env : Environ) (m : Manager) (op : Op)
    (h : ((applyOp env m op).2).isSome = true) : (applyOp env m op).1 = m := by
  cases op with
  | save name p => exact absurd h (by simp [applyOp])
  | rename old_name new_name =>
    simp only [applyOp] at h ⊢
    unfold Manager.rename_profile at h ⊢
    cases ho : lookupKey m.data.profiles old_name with
    | none => rfl
    | some v =>
      rw [ho] at h
      dsimp only at h ⊢
      split_ifs at h ⊢ <;> first | rfl | simp at h
  | activate name =>
    simp only [applyOp] at h ⊢
    unfold Manager.activate_profile at h ⊢
    split_ifs at h ⊢ <;> first | rfl | simp at h
  | delete name =>
    simp only [applyOp] at h ⊢
    unfold Manager.delete_profile at h ⊢
    split_ifs at h ⊢ <;> first | rfl | simp at h

/-- Witness for C7 at a delete of a missing profile. -/
theorem error_leaves_state_unchanged_witness :
    ((applyOp {} (initManager {}) (Op.delete "ghost")).2).isSome = true ∧
    (applyOp {} (initManager {}) (Op.delete "ghost")).1 = initManager {} :=
  ⟨by decide,
    error_leaves_state_unchanged {} (initManager {}) (Op.delete "ghost")
      (by decide)⟩

/-- C8, counterexample: `save_profiles` does not use the
write-to-temporary-then-atomically-replace strategy — its trace opens the
target itself in truncating write mode. -/
theorem save_profiles_not_atomic_cex :
    ¬usesAtomicReplaceStrategy saveProfilesTrace profilesPath :=
  fun h =>
    h.2 (FileOp.openTrunc profilesPath) (by simp [saveProfilesTrace]) rfl

/-- C8 (amended): `save_profiles` writes the durable document by opening
the target in place (truncation) and dumping the JSON; it touches no
temporary file and performs no rename, so an interruption mid-write can
leave a half-written document visible to a subsequent load. -/
theorem save_profiles_in_place :
    FileOp.openTrunc profilesPath ∈ saveProfilesTrace ∧
    touchesOnlyTargetInPlace saveProfilesTrace profilesPath = true := by decide

/-- C10: when the parsed durable document's `active_profile` names no
stored profile, loading succeeds (the model of `load_config` is total on
parsed documents: `profiles.get(name, {})` supplies an empty overlay),
the resolved config's dynamic fields equal the environment defaults, and
the document is adopted verbatim — no repair of the active pointer. -/
theorem load_dangling_active (env : Environ) (doc : StoreData)
    (h : lookupKey doc.profiles doc.active_profile = none) :
    (initFromDoc env doc).config = Config.init env ∧
    (initFromDoc env doc).config.to_dict = (Config.init env).to_dict ∧
    (initFromDoc env doc).data = doc := by
  have hc : (initFromDoc env doc).config = Config.init env := by
    unfold initFromDoc Manager.load_config
    dsimp only
    simp only [h]
    exact Config.update_emptyPatch _
  exact ⟨hc, by rw [hc], rfl⟩

/-- Witness for C10 at a document whose active pointer dangles. -/
theorem load_dangling_active_witness :
    lookupKey ([] : Profiles) "ghost" = none ∧
    (initFromDoc {} ⟨"ghost", []⟩).config = Config.init {} ∧
    (initFromDoc {} ⟨"ghost", []⟩).data = (⟨"ghost", []⟩ : StoreData) :=
  ⟨rfl, (load_dangling_active {} ⟨"ghost", []⟩ rfl).1,
    (load_dangling_active {} ⟨"ghost", []⟩ rfl).2.2⟩

end CCProxy
